import Mathlib

/-!
Verification of the batch OSM-to-SUMO conversion pipeline
(`process_downloaded_areas.py`) against its natural-language specification.

The Python program is shallowly embedded: each function of the source is a
Lean definition of the same name, stateful interaction with the operating
system (subprocess exit codes, raised exceptions, file existence, file
contents) is packaged into an explicit `Env` record passed to each function,
and the list of external calls a function performs is returned alongside its
value so that invocation order and short-circuiting are observable.
-/

/-- Exceptions that the Python standard library can raise at the external
interaction points of the script: `subprocess.TimeoutExpired`,
`FileNotFoundError` (executable or file missing), or any other `Exception`.
All are subclasses of `Exception`, hence caught by the handlers of the script. -/
inductive PyExc where
  | timeoutExpired
  | fileNotFoundError
  | otherError
deriving DecidableEq, Repr

/-- Outcome of one `subprocess.run(...)` call: either the process completed
and a `returncode` is available, or the call raised an exception. -/
inductive RunOutcome where
  | completed (returncode : Int)
  | raises (e : PyExc)
deriving DecidableEq, Repr

/-- Semantics of `subprocess.run`: a completed process yields its return
code, otherwise the exception propagates. -/
def subprocess_run : RunOutcome → Except PyExc Int
  | .completed c => .ok c
  | .raises e => .error e

/-- Observable external calls made by the pipeline, in program order:
the three tool invocations (`netconvert`, `randomTrips.py`, `duarouter`),
the read of the produced network file in `get_network_stats`, and the
file writes of `create_config`. -/
inductive Call where
  | netconvert
  | readNetFile
  | randomTrips
  | duarouter
  | writeConfigFiles
deriving DecidableEq, Repr

/-- The state of the world relevant to one `process_area` run: what each
external tool does when invoked, and what the file system holds at each
point where the script consults it. -/
structure Env where
  /-- does the OSM source file named by the area record exist (line 192)? -/
  osmExists : Bool
  /-- outcome of the `netconvert` run (line 57) -/
  netconvert : RunOutcome
  /-- does the produced `net_file` exist after `netconvert` (line 59)? -/
  netFileExists : Bool
  /-- reading the net file in `get_network_stats` (lines 169-170): the
  file content, or the exception the read raises -/
  netFileRead : Except PyExc String
  /-- outcome of the `randomTrips.py` run (line 96) -/
  randomTrips : RunOutcome
  /-- does the trips file exist after `randomTrips.py`?  (The script never
  consults this, which is itself a finding; the field models the disk.) -/
  tripsFileExists : Bool
  /-- outcome of the `duarouter` run (line 112) -/
  duarouter : RunOutcome
  /-- does the produced `route_file` exist after `duarouter` (line 114)? -/
  routeFileExists : Bool
  /-- do the file writes of `create_config` (lines 132-157) raise?  `none`
  means they succeed. -/
  configWrite : Option PyExc

/-- Python `str.lower()`, character by character. -/
def pyLower (s : String) : String := String.mk (s.data.map Char.toLower)

/-- `f"{area_name.lower()}.net.xml"` (line 38). -/
def netFileName (areaName : String) : String := pyLower areaName ++ ".net.xml"

/-- `f"{area_name.lower()}.trips.xml"` (line 74). -/
def tripsFileName (areaName : String) : String := pyLower areaName ++ ".trips.xml"

/-- `f"{area_name.lower()}.rou.xml"` (line 75). -/
def routeFileName (areaName : String) : String := pyLower areaName ++ ".rou.xml"

/-- `f"{area_name.lower()}.sumocfg"` (line 127). -/
def configFileName (areaName : String) : String := pyLower areaName ++ ".sumocfg"

/-- `convert_to_sumo` (lines 36-70).  Runs `netconvert`; on return code 0
with the output file present it returns the net file name, otherwise
`None`.  The `except Exception` handler (lines 68-70) turns any raised
exception into `None`.  The second component records the external call. -/
def convert_to_sumo (areaName : String) (env : Env) : Option String × List Call :=
  match subprocess_run env.netconvert with
  | .error _ => (none, [Call.netconvert])
  | .ok returncode =>
    (if returncode = 0 ∧ env.netFileExists then some (netFileName areaName) else none,
     [Call.netconvert])

/-- `generate_traffic` (lines 72-123).  Runs `randomTrips.py`; a nonzero
exit fails the step (lines 98-100) — note no existence check on the trips
file.  Then runs `duarouter`; return code 0 together with an existing
route file succeeds (line 114), otherwise `None`.  The `except Exception`
handler (lines 121-123) turns any raised exception into `None`. -/
def generate_traffic (net_file areaName : String) (env : Env) : Option String × List Call :=
  match subprocess_run env.randomTrips with
  | .error _ => (none, [Call.randomTrips])
  | .ok rc1 =>
    if rc1 ≠ 0 then (none, [Call.randomTrips])
    else
      match subprocess_run env.duarouter with
      | .error _ => (none, [Call.randomTrips, Call.duarouter])
      | .ok rc2 =>
        (if rc2 = 0 ∧ env.routeFileExists then some (routeFileName areaName) else none,
         [Call.randomTrips, Call.duarouter])

/-- `create_config` (lines 125-164).  Writes the additional file and the
config file; any exception during the writes is caught (lines 162-164)
and yields `None`, otherwise the config file name is returned. -/
def create_config (net_file route_file areaName : String) (env : Env) : Option String × List Call :=
  match env.configWrite with
  | some _ => (none, [Call.writeConfigFiles])
  | none => (some (configFileName areaName), [Call.writeConfigFiles])

/-- Non-overlapping substring count over character lists, matching Python
`str.count`: scan left to right, on a match skip past the matched text.
The fuel argument (instantiated with the text length, which bounds the
number of scan steps) makes the recursion structural. -/
def countSubAux (pat : List Char) : Nat → List Char → Nat
  | _, [] => 0
  | 0, _ => 0
  | fuel + 1, c :: rest =>
    if pat.isPrefixOf (c :: rest) then
      1 + countSubAux pat fuel (rest.drop (pat.length - 1))
    else
      countSubAux pat fuel rest

/-- Python `content.count(pat)` for a nonempty pattern. -/
def pyCount (content pat : String) : Nat :=
  countSubAux pat.data content.data.length content.data

/-- `get_network_stats` (lines 166-175).  Reads the net file and counts the
textual markers `<junction` and `<edge`; the bare `except:` returns
`(0, 0)` on any failure. -/
def get_network_stats (net_file : String) (env : Env) : (Nat × Nat) × List Call :=
  match env.netFileRead with
  | .error _ => ((0, 0), [Call.readNetFile])
  | .ok content => ((pyCount content "<junction", pyCount content "<edge"), [Call.readNetFile])

/-- Per-area outcome record, the dict built at lines 183-189: keys
`name`, `status`, `junctions`, `edges`, `vehicles`. -/
structure AreaResult where
  name : String
  status : String
  junctions : Nat
  edges : Nat
  vehicles : Nat
deriving DecidableEq, Repr

/-- One entry of the `AREAS` registry (lines 12-20). -/
structure Area where
  name : String
  osm_file : String
deriving DecidableEq, Repr

/-- `process_area` (lines 177-226).  Builds the default `Failed` result,
returns it early when the OSM file is missing (lines 192-194), then runs
convert, measure, traffic and config in order, returning at the first
step that yields `None`; only when all steps succeed is the status set to
`Success` (line 220).  The outer `try/except` (lines 198-225) cannot fire
in this model because every helper catches its own exceptions, which is
exactly what it does in the source.  The second component is the sequence
of external calls performed. -/
def process_area (area : Area) (env : Env) : AreaResult × List Call :=
  let area_result : AreaResult :=
    { name := area.name, status := "Failed", junctions := 0, edges := 0, vehicles := 100 }
  if env.osmExists = false then (area_result, [])
  else
    let conv := convert_to_sumo area.name env
    match conv.1 with
    | none => (area_result, conv.2)
    | some net_file =>
      let stats := get_network_stats net_file env
      let area_result2 : AreaResult :=
        { area_result with junctions := stats.1.1, edges := stats.1.2 }
      let traf := generate_traffic net_file area.name env
      match traf.1 with
      | none => (area_result2, conv.2 ++ stats.2 ++ traf.2)
      | some route_file =>
        let conf := create_config net_file route_file area.name env
        match conf.1 with
        | none => (area_result2, conv.2 ++ stats.2 ++ traf.2 ++ conf.2)
        | some _ =>
          ({ area_result2 with status := "Success" }, conv.2 ++ stats.2 ++ traf.2 ++ conf.2)

/-- The `AREAS` registry (lines 12-20): the seven configured areas. -/
def AREAS : List Area :=
  [⟨"Indiranagar", "indiranagar.osm"⟩,
   ⟨"Whitefield", "whitefield.osm"⟩,
   ⟨"Koramangala", "koramangala.osm"⟩,
   ⟨"MG_Road", "mg_road.osm"⟩,
   ⟨"Jayanagar", "jayanagar.osm"⟩,
   ⟨"Hebbal", "hebbal.osm"⟩,
   ⟨"Yeshwanthpur", "yeshwanthpur.osm"⟩]

/-- The per-area results accumulated by `main` (lines 302-305): one
`process_area` outcome per registry entry, in order.  The world is indexed
by area name since each area touches its own files. -/
def main_results (world : String → Env) : List AreaResult :=
  AREAS.map (fun a => (process_area a (world a.name)).1)

/-- The process exit code of `main` (lines 315 and 328):
`0 if successful == 7 else 1` where `successful` counts `Success` results. -/
def main_exit_code (world : String → Env) : Nat :=
  let successful := (main_results world).countP (fun r => r.status == "Success")
  if successful = 7 then 0 else 1

-- Aggregation in `generate_final_report` (lines 254-277).

/-- One iteration of the accumulation loop (lines 258-264): a `Success`
result adds one to the success count and its junction and edge counts to
the running totals; any other result leaves the accumulator unchanged. -/
def report_fold (acc : Nat × Nat × Nat) (r : AreaResult) : Nat × Nat × Nat :=
  if r.status == "Success" then (acc.1 + 1, acc.2.1 + r.junctions, acc.2.2 + r.edges) else acc

/-- The loop of lines 254-264: `successful`, `total_junctions` and
`total_edges` starting from `0`, `94` (Electronic City) and `198`. -/
def report_totals (results : List AreaResult) : Nat × Nat × Nat :=
  results.foldl report_fold (0, 94, 198)

/-- The four totals printed at lines 274-277:
`areasCompleted = successful + 1`, the junction and edge totals, and
`totalVehicles = (successful + 1) * 100`. -/
def batch_totals (results : List AreaResult) : Nat × Nat × Nat × Nat :=
  let t := report_totals results
  (t.1 + 1, t.2.1, t.2.2, (t.1 + 1) * 100)

/-- The fixed baseline entry: Electronic City, hard-coded at lines 246-251
and 255-256 of the source and in the round-trip scenario of the spec
(junctions 94, edges 198, vehicles 100, already successful). -/
def baselineEC : AreaResult :=
  { name := "Electronic City", status := "Success", junctions := 94, edges := 198, vehicles := 100 }

/-- Modelled from the spec (section 4.4): totals computed by folding over
`results` filtered to `status == Success`, summing each metric of those
entries, plus unconditionally adding the metrics of the baseline entry; the
completed count is the number of successes plus the baseline.  This is the
definition that the `batch_totals` of the code is compared against. -/
def spec_fold_totals (baseline : AreaResult) (results : List AreaResult) : Nat × Nat × Nat × Nat :=
  let succ := results.filter (fun r => r.status == "Success")
  (succ.length + 1,
   baseline.junctions + (succ.map (fun r => r.junctions)).sum,
   baseline.edges + (succ.map (fun r => r.edges)).sum,
   baseline.vehicles + (succ.map (fun r => r.vehicles)).sum)

-- Rendering of the final report (`generate_final_report`, lines 228-292).

/-- `"="*80`, the horizontal rule used throughout the report. -/
def hrule : String := String.mk (List.replicate 80 '=')

/-- The per-area sections written by the loop at lines 258-269, with the
enumeration starting at 2 (`enumerate(results, 2)`): name and status for
every result, plus the metric lines and config line for successes, and a
blank line after each section. -/
def area_chunks : Nat → List AreaResult → List String
  | _, [] => []
  | i, r :: rest =>
    ([toString i ++ ". " ++ r.name ++ "\n",
      "   Status: " ++ r.status ++ "\n"] ++
     (if r.status == "Success" then
        ["   Junctions: " ++ toString r.junctions ++ "\n",
         "   Road Segments: " ++ toString r.edges ++ "\n",
         "   Vehicles: " ++ toString r.vehicles ++ "\n",
         "   Config: " ++ pyLower r.name ++ ".sumocfg\n"]
      else []) ++ ["\n"]) ++ area_chunks (i + 1) rest

/-- The run-instruction lines of lines 283-285: one line per successful
result. -/
def run_chunks : List AreaResult → List String
  | [] => []
  | r :: rest =>
    (if r.status == "Success" then
       [r.name ++ ": sumo-gui -c " ++ pyLower r.name ++ ".sumocfg\n"]
     else []) ++ run_chunks rest

/-- `generate_final_report` (lines 228-292) as the sequence of strings it
writes to the report file, in order.  The two clock readings of lines
238-239 are passed in as the already-formatted strings they produce:
`completionDate` stands for `datetime.now().strftime(...)` and
`processingTime` for `str(datetime.now() - start_time)`; every other chunk
is a function of `results` alone. -/
def generate_final_report_chunks
    (results : List AreaResult) (completionDate processingTime : String) : List String :=
  let t := report_totals results
  [hrule ++ "\n",
   "DIGITAL TWIN IMPLEMENTATION - FINAL REPORT\n",
   "ALL 8 BANGALORE AREAS COMPLETED\n",
   hrule ++ "\n\n",
   "Completion Date: " ++ completionDate ++ "\n",
   "Processing Time: " ++ processingTime ++ "\n\n",
   hrule ++ "\n",
   "COMPLETED AREAS\n",
   hrule ++ "\n\n",
   "1. Electronic City\n",
   "   Status: Completed ✓\n",
   "   Junctions: 94\n",
   "   Road Segments: 198\n",
   "   Vehicles: 100\n",
   "   Config: electronic_city.sumocfg\n\n"] ++
  area_chunks 2 results ++
  [hrule ++ "\n",
   "OVERALL STATISTICS\n",
   hrule ++ "\n\n",
   "Total Areas Completed: " ++ toString (t.1 + 1) ++ "/8\n",
   "Total Junctions: " ++ toString t.2.1 ++ "\n",
   "Total Road Segments: " ++ toString t.2.2 ++ "\n",
   "Total Vehicles: " ++ toString ((t.1 + 1) * 100) ++ "\n\n",
   hrule ++ "\n",
   "HOW TO RUN SIMULATIONS\n",
   hrule ++ "\n\n",
   "Electronic City: sumo-gui -c electronic_city.sumocfg\n"] ++
  run_chunks results ++
  ["\n" ++ hrule ++ "\n",
   "PROJECT COMPLETE! 🎉\n",
   hrule ++ "\n"]

-- Concrete environments used by counterexamples and witnesses.

/-- A world in which everything succeeds: the OSM file is present, all
three tools exit 0, all expected artifacts exist, the net file holds three
junction markers and two edge markers, and the config writes succeed. -/
def envAllGood : Env :=
  { osmExists := true,
    netconvert := .completed 0,
    netFileExists := true,
    netFileRead := .ok "<junction a><junction b><junction c><edge x><edge y>",
    randomTrips := .completed 0,
    tripsFileExists := true,
    duarouter := .completed 0,
    routeFileExists := true,
    configWrite := none }

/-- Same world but the OSM source file of the area is missing. -/
def envMissingOsm : Env := { envAllGood with osmExists := false }

/-- Same world but `netconvert` exits with a nonzero code. -/
def envNetconvertFails : Env := { envAllGood with netconvert := .completed 1 }

/-- Same world but the net file is unreadable and `randomTrips.py` exits
nonzero: the pipeline fails at the trip-synthesis stage with zero metrics. -/
def envTripsFailZeroStats : Env :=
  { envAllGood with netFileRead := .ok "", randomTrips := .completed 1 }

/-- Same world but `randomTrips.py` exits nonzero after a successful
measure step: the pipeline fails at the trip-synthesis stage with the
already-measured nonzero metrics. -/
def envTripsFail : Env := { envAllGood with randomTrips := .completed 1 }

/-- Same world but the trips artifact is never written even though
`randomTrips.py` exits 0. -/
def envTripsArtifactMissing : Env := { envAllGood with tripsFileExists := false }

/-- None of the failure modes of the claim taxonomy occurs: the source
file exists, every tool run completes with exit code 0 (so no exception —
no missing executable, no timeout — and no nonzero exit), the output
artifacts the script checks for exist, and the config writes succeed. -/
def all_good (env : Env) : Prop :=
  env.osmExists = true ∧ env.netconvert = .completed 0 ∧ env.netFileExists = true ∧
    env.randomTrips = .completed 0 ∧ env.duarouter = .completed 0 ∧
    env.routeFileExists = true ∧ env.configWrite = none

-- Helper lemmas.

/-- Entries that are not `Success` leave the accumulation loop unchanged,
so filtering the results to the successes first does not change it. -/
lemma foldl_report_fold_filter (l : List AreaResult) (acc : Nat × Nat × Nat) :
    (l.filter (fun r => r.status == "Success")).foldl report_fold acc
      = l.foldl report_fold acc := by
  induction l generalizing acc with
  | nil => rfl
  | cons r t ih =>
    by_cases h : r.status == "Success" <;>
      simp [List.filter_cons, h, List.foldl_cons, ih, report_fold]

/-- Closed form of the accumulation loop: starting values plus the number
of successes and the sums of the metrics of the successful entries. -/
lemma foldl_report_fold_spec (l : List AreaResult) (a b c : Nat) :
    l.foldl report_fold (a, b, c)
      = (a + (l.filter (fun r => r.status == "Success")).length,
         b + ((l.filter (fun r => r.status == "Success")).map (fun r => r.junctions)).sum,
         c + ((l.filter (fun r => r.status == "Success")).map (fun r => r.edges)).sum) := by
  induction l generalizing a b c with
  | nil => simp
  | cons r t ih =>
    by_cases h : r.status == "Success" <;>
      simp [List.filter_cons, h, List.foldl_cons, ih, report_fold] <;> omega

/-- When every entry carries the fixed vehicle count 100, the sum of the
successful entries is 100 per success. -/
lemma vehicles_sum_const (l : List AreaResult) (h : ∀ r ∈ l, r.vehicles = 100) :
    ((l.filter (fun r => r.status == "Success")).map (fun r => r.vehicles)).sum
      = 100 * (l.filter (fun r => r.status == "Success")).length := by
  induction l with
  | nil => simp
  | cons r t ih =>
    have hr : r.vehicles = 100 := h r (by simp)
    have ht : ∀ x ∈ t, x.vehicles = 100 := fun x hx => h x (List.mem_cons_of_mem _ hx)
    by_cases hs : r.status == "Success"
    · simp [List.filter_cons, hs, ih ht, hr]
      ring
    · simp [List.filter_cons, hs, ih ht]

/-- `convert_to_sumo` performs exactly one external call, `netconvert`. -/
lemma convert_trace (n : String) (env : Env) :
    (convert_to_sumo n env).2 = [Call.netconvert] := by
  cases h : env.netconvert <;> simp [convert_to_sumo, subprocess_run, h]

/-- The only file name `convert_to_sumo` can return. -/
lemma convert_some_eq {n s : String} {env : Env}
    (h : (convert_to_sumo n env).1 = some s) : s = netFileName n := by
  cases hn : env.netconvert with
  | raises e => simp [convert_to_sumo, subprocess_run, hn] at h
  | completed c =>
    simp [convert_to_sumo, subprocess_run, hn] at h
    exact h.2.symm

/-- `convert_to_sumo` succeeds exactly when `netconvert` exits 0 and the
network artifact exists. -/
lemma convert_some_iff (n : String) (env : Env) :
    (convert_to_sumo n env).1.isSome
      ↔ (env.netconvert = .completed 0 ∧ env.netFileExists = true) := by
  cases hn : env.netconvert with
  | raises e => simp [convert_to_sumo, subprocess_run, hn]
  | completed c =>
    by_cases hc : c = 0
    · subst hc
      by_cases hf : env.netFileExists <;> simp [convert_to_sumo, subprocess_run, hn, hf]
    · simp [convert_to_sumo, subprocess_run, hn, hc]

/-- `get_network_stats` performs exactly one external interaction, the
read of the network file. -/
lemma stats_trace (f : String) (env : Env) :
    (get_network_stats f env).2 = [Call.readNetFile] := by
  cases h : env.netFileRead <;> simp [get_network_stats, h]

/-- When the trip-synthesis step fails (exception or nonzero exit),
`generate_traffic` fails without ever invoking `duarouter`. -/
lemma traffic_fail_of_trips_fail (f n : String) (env : Env)
    (h : subprocess_run env.randomTrips ≠ .ok 0) :
    generate_traffic f n env = (none, [Call.randomTrips]) := by
  cases hr : env.randomTrips with
  | raises e => simp [generate_traffic, subprocess_run, hr]
  | completed c =>
    have hc : c ≠ 0 := by
      intro h0
      exact h (by simp [subprocess_run, hr, h0])
    simp [generate_traffic, subprocess_run, hr, hc]

/-- `generate_traffic` succeeds exactly when both tools exit 0 and the
route artifact exists.  (Note: no condition on the trips artifact.) -/
lemma traffic_some_iff (f n : String) (env : Env) :
    (generate_traffic f n env).1.isSome
      ↔ (env.randomTrips = .completed 0 ∧ env.duarouter = .completed 0 ∧
          env.routeFileExists = true) := by
  cases hr : env.randomTrips with
  | raises e => simp [generate_traffic, subprocess_run, hr]
  | completed c =>
    by_cases hc : c = 0
    · subst hc
      cases hd : env.duarouter with
      | raises e => simp [generate_traffic, subprocess_run, hr, hd]
      | completed c2 =>
        by_cases hc2 : c2 = 0
        · subst hc2
          by_cases hro : env.routeFileExists <;>
            simp [generate_traffic, subprocess_run, hr, hd, hro]
        · simp [generate_traffic, subprocess_run, hr, hd, hc2]
    · simp [generate_traffic, subprocess_run, hr, hc]

/-- The calls `generate_traffic` performs are `randomTrips` possibly
followed by `duarouter` — never anything else. -/
lemma traffic_trace_cases (f n : String) (env : Env) :
    (generate_traffic f n env).2 = [Call.randomTrips] ∨
      (generate_traffic f n env).2 = [Call.randomTrips, Call.duarouter] := by
  cases hr : env.randomTrips with
  | raises e => simp [generate_traffic, subprocess_run, hr]
  | completed c =>
    by_cases hc : c = 0
    · cases hd : env.duarouter <;> simp [generate_traffic, subprocess_run, hr, hc, hd]
    · simp [generate_traffic, subprocess_run, hr, hc]

/-- Explicit description of `process_area`: the four ways a run can end
(missing input, failed conversion, failed traffic generation or config
creation, full success), with the result record and the call trace of
each. -/
lemma process_area_eq (area : Area) (env : Env) :
    process_area area env =
      if env.osmExists = false then
        (⟨area.name, "Failed", 0, 0, 100⟩, ([] : List Call))
      else if (convert_to_sumo area.name env).1 = none then
        (⟨area.name, "Failed", 0, 0, 100⟩, [Call.netconvert])
      else
        let stats := get_network_stats (netFileName area.name) env
        let traf := generate_traffic (netFileName area.name) area.name env
        if traf.1 = none then
          (⟨area.name, "Failed", stats.1.1, stats.1.2, 100⟩,
           [Call.netconvert, Call.readNetFile] ++ traf.2)
        else if env.configWrite = none then
          (⟨area.name, "Success", stats.1.1, stats.1.2, 100⟩,
           [Call.netconvert, Call.readNetFile] ++ traf.2 ++ [Call.writeConfigFiles])
        else
          (⟨area.name, "Failed", stats.1.1, stats.1.2, 100⟩,
           [Call.netconvert, Call.readNetFile] ++ traf.2 ++ [Call.writeConfigFiles]) := by
  by_cases hosm : env.osmExists = false
  · simp [process_area, hosm]
  · cases hc : (convert_to_sumo area.name env).1 with
    | none => simp [process_area, hosm, hc, convert_trace area.name env]
    | some nf =>
      have hnf : nf = netFileName area.name := convert_some_eq hc
      subst hnf
      have hct := convert_trace area.name env
      have hst := stats_trace (netFileName area.name) env
      cases ht : (generate_traffic (netFileName area.name) area.name env).1 with
      | none =>
        simp [process_area, hosm, hc, ht, hct, hst]
      | some rf =>
        cases hcw : env.configWrite with
        | none =>
          simp [process_area, hosm, hc, ht, hcw, create_config, hct, hst]
        | some e =>
          simp [process_area, hosm, hc, ht, hcw, create_config, hct, hst]

-- Claim theorems.

/-- Claim C1: for the fixed baseline (junctions 94, edges 198, vehicles
100) and a results sequence holding one `Success` entry with junctions 85,
edges 180, vehicles 100 and one `Failed` entry, the report totals are
areasCompleted 2, totalJunctions 179, totalEdges 378, totalVehicles 200,
the `Failed` entry (whatever metrics it carries, with its configured
vehicle count 100) contributing zero to every total. -/
theorem C1_round_trip_totals (jB eB : Nat) :
    batch_totals
        [⟨"Area A", "Success", 85, 180, 100⟩, ⟨"Area B", "Failed", jB, eB, 100⟩]
      = (2, 179, 378, 200) := by
  simp [batch_totals, report_totals, List.foldl, report_fold]

/-- Claim C2 counterexample: the vehicle total is not a fold of the
vehicle counts of the successful entries plus the baseline count.  For a single
`Success` entry carrying vehicle count 50, the code computes
`(successful + 1) * 100 = 200` (lines 274-277) while the fold described by
the spec gives `100 + 50 = 150`. -/
theorem C2_counterexample :
    batch_totals [⟨"X", "Success", 10, 20, 50⟩]
      ≠ spec_fold_totals baselineEC [⟨"X", "Success", 10, 20, 50⟩] := by decide

/-- Claim C2 (amended): the completed-area, junction and edge totals are
the fold over the `Success` entries plus the baseline metrics, and no
metric of a `Failed` entry is ever included (filtering the results to the
successes leaves every total unchanged); but the vehicle total is
`(successes + 1) * 100` — the fixed configured count per success — rather
than a fold of the per-entry vehicle fields, so the totals of the code agree
with the fold of the spec only when every entry carries the configured
vehicle count 100 (which every `process_area` result does). -/
theorem C2_totals_fold (results : List AreaResult) :
    batch_totals results
        = batch_totals (results.filter (fun r => r.status == "Success")) ∧
      ((∀ r ∈ results, r.vehicles = 100) →
        batch_totals results = spec_fold_totals baselineEC results) := by
  constructor
  · simp [batch_totals, report_totals, foldl_report_fold_filter]
  · intro h
    simp only [batch_totals, report_totals, spec_fold_totals, baselineEC,
      foldl_report_fold_spec, vehicles_sum_const results h]
    refine Prod.ext (by simp) (Prod.ext (by simp) (Prod.ext (by simp) ?_))
    simp
    ring

/-- Witness for C2 (amended) at a concrete result list: one success with
the configured vehicle count and one failed entry with junk metrics. -/
theorem C2_totals_fold_witness :
    (∀ r ∈ [AreaResult.mk "A" "Success" 85 180 100, AreaResult.mk "B" "Failed" 7 9 100],
        r.vehicles = 100) ∧
      batch_totals [AreaResult.mk "A" "Success" 85 180 100, AreaResult.mk "B" "Failed" 7 9 100]
        = spec_fold_totals baselineEC
            [AreaResult.mk "A" "Success" 85 180 100, AreaResult.mk "B" "Failed" 7 9 100] :=
  ⟨by decide,
   (C2_totals_fold
      [AreaResult.mk "A" "Success" 85 180 100, AreaResult.mk "B" "Failed" 7 9 100]).2
     (by decide)⟩

/-- The status of a run is `Success` exactly when the input existed and
all three steps returned a value (with the config writes succeeding). -/
lemma status_success_iff (area : Area) (env : Env) :
    (process_area area env).1.status = "Success"
      ↔ (env.osmExists = true ∧ (convert_to_sumo area.name env).1.isSome ∧
          (generate_traffic (netFileName area.name) area.name env).1.isSome ∧
          env.configWrite = none) := by
  rw [process_area_eq]
  by_cases hosm : env.osmExists = false
  · simp [hosm]
  · have hosm2 : env.osmExists = true := by
      cases h : env.osmExists
      · exact absurd h hosm
      · rfl
    by_cases hc : (convert_to_sumo area.name env).1 = none
    · simp [hosm, hosm2, hc]
    · by_cases ht : (generate_traffic (netFileName area.name) area.name env).1 = none
      · simp [hosm, hosm2, hc, ht]
      · cases hcw : env.configWrite with
        | none => simp [hosm, hosm2, hc, ht, hcw, Option.isSome_iff_ne_none]
        | some e => simp [hosm, hosm2, hc, ht, hcw, Option.isSome_iff_ne_none]

/-- The status of a run is always one of the two literal strings the script
assigns. -/
lemma status_cases (area : Area) (env : Env) :
    (process_area area env).1.status = "Success" ∨
      (process_area area env).1.status = "Failed" := by
  rw [process_area_eq]
  dsimp only
  split_ifs <;> simp

/-- Claim C3 counterexample: with `randomTrips.py` exiting 0 but the trips
artifact absent from disk, the trip-synthesis step does not report
failure: `generate_traffic` goes on to invoke `duarouter` and returns the
route file, and the whole area run ends in `Success`.  The script checks
the existence of the network and route artifacts but never that of the
trips artifact (lines 98-100). -/
theorem C3_counterexample :
    envTripsArtifactMissing.randomTrips = .completed 0 ∧
      envTripsArtifactMissing.tripsFileExists = false ∧
      (generate_traffic "indiranagar.net.xml" "Indiranagar" envTripsArtifactMissing).1
        = some "indiranagar.rou.xml" ∧
      (process_area ⟨"Indiranagar", "indiranagar.osm"⟩ envTripsArtifactMissing).1.status
        = "Success" := by decide

/-- Claim C3 (amended): the Convert stage and the ComputeRoutes stage do
report failure when their tool exits 0 but the expected artifact is
missing; the SynthesizeTrips stage checks only the exit code, so a zero
exit with a missing trips artifact does not fail it — the pipeline
proceeds regardless of whether the trips file exists. -/
theorem C3_output_artifact_checks (f n : String) (env : Env) :
    (env.netconvert = .completed 0 → env.netFileExists = false →
      (convert_to_sumo n env).1 = none) ∧
    (env.duarouter = .completed 0 → env.routeFileExists = false →
      (generate_traffic f n env).1 = none) ∧
    (env.randomTrips = .completed 0 → env.duarouter = .completed 0 →
      env.routeFileExists = true →
      (generate_traffic f n env).1 = some (routeFileName n)) := by
  refine ⟨fun h1 h2 => ?_, fun h1 h2 => ?_, fun h1 h2 h3 => ?_⟩
  · simp [convert_to_sumo, subprocess_run, h1, h2]
  · cases hr : env.randomTrips with
    | raises e => simp [generate_traffic, subprocess_run, hr]
    | completed c =>
      by_cases hc : c = 0 <;> simp [generate_traffic, subprocess_run, hr, hc, h1, h2]
  · simp [generate_traffic, subprocess_run, h1, h2, h3]

/-- Witness for C3 (amended): the Convert check fires on a missing net
file, the ComputeRoutes check fires on a missing route file, and the
all-good world succeeds. -/
theorem C3_output_artifact_checks_witness :
    (convert_to_sumo "Indiranagar" { envAllGood with netFileExists := false }).1 = none ∧
      (generate_traffic "indiranagar.net.xml" "Indiranagar"
          { envAllGood with routeFileExists := false }).1 = none ∧
      (generate_traffic "indiranagar.net.xml" "Indiranagar" envAllGood).1
        = some (routeFileName "Indiranagar") :=
  ⟨(C3_output_artifact_checks "indiranagar.net.xml" "Indiranagar" _).1 rfl rfl,
   (C3_output_artifact_checks "indiranagar.net.xml" "Indiranagar" _).2.1 rfl rfl,
   (C3_output_artifact_checks "indiranagar.net.xml" "Indiranagar" _).2.2 rfl rfl rfl⟩

/-- Claim C4 counterexample: the result returned for a missing source
file is identical, field for field, to the result returned when the
source exists but the stage-1 tool fails — the result record has no
`failedStage` field and nothing in it denotes the precondition check
(only the call trace, which is not part of the AreaResult, differs). -/
theorem C4_counterexample :
    (process_area ⟨"Indiranagar", "indiranagar.osm"⟩ envMissingOsm).1
        = (process_area ⟨"Indiranagar", "indiranagar.osm"⟩ envNetconvertFails).1 ∧
      envMissingOsm.osmExists = false ∧
      envNetconvertFails.osmExists = true ∧
      (process_area ⟨"Indiranagar", "indiranagar.osm"⟩ envMissingOsm).2 = [] ∧
      (process_area ⟨"Indiranagar", "indiranagar.osm"⟩ envNetconvertFails).2
        = [Call.netconvert] := by decide

/-- Claim C4 (amended): for a missing source file, `process_area` returns
the default `Failed` record without invoking any external tool (empty
call trace); the result does not record which stage failed, since the
result record has no `failedStage` field. -/
theorem C4_missing_input (area : Area) (env : Env) (h : env.osmExists = false) :
    process_area area env = (⟨area.name, "Failed", 0, 0, 100⟩, []) := by
  simp [process_area, h]

/-- Witness for C4 (amended) at a concrete area and world. -/
theorem C4_missing_input_witness :
    envMissingOsm.osmExists = false ∧
      process_area ⟨"Indiranagar", "indiranagar.osm"⟩ envMissingOsm
        = (⟨"Indiranagar", "Failed", 0, 0, 100⟩, []) :=
  ⟨rfl, C4_missing_input _ _ rfl⟩

/-- Claim C5 counterexample: a run failing at stage 1 (netconvert exits
nonzero) and a run failing at stage 3 (trip synthesis exits nonzero,
after a measure step that read an empty file) return identical
AreaResults — the failing stage is not recorded anywhere in the result
(the differing call traces show the failures happened at different
stages). -/
theorem C5_counterexample :
    (process_area ⟨"Indiranagar", "indiranagar.osm"⟩ envNetconvertFails).1
        = (process_area ⟨"Indiranagar", "indiranagar.osm"⟩ envTripsFailZeroStats).1 ∧
      Call.randomTrips ∉
        (process_area ⟨"Indiranagar", "indiranagar.osm"⟩ envNetconvertFails).2 ∧
      Call.randomTrips ∈
        (process_area ⟨"Indiranagar", "indiranagar.osm"⟩ envTripsFailZeroStats).2 := by
  decide

/-- Claim C5 (amended): the pipeline short-circuits — when the Convert
stage fails, neither trip synthesis nor routing nor the config writes are
ever invoked; when trip synthesis fails, routing and the config writes
are never invoked; when traffic generation fails, the config writes are
never invoked — but the failing stage is not recorded in the AreaResult. -/
theorem C5_short_circuit (area : Area) (env : Env) :
    ((convert_to_sumo area.name env).1 = none →
        Call.randomTrips ∉ (process_area area env).2 ∧
        Call.duarouter ∉ (process_area area env).2 ∧
        Call.writeConfigFiles ∉ (process_area area env).2) ∧
      (subprocess_run env.randomTrips ≠ .ok 0 →
        Call.duarouter ∉ (process_area area env).2 ∧
        Call.writeConfigFiles ∉ (process_area area env).2) ∧
      ((generate_traffic (netFileName area.name) area.name env).1 = none →
        Call.writeConfigFiles ∉ (process_area area env).2) := by
  rw [process_area_eq]
  dsimp only
  refine ⟨fun h => ?_, fun h => ?_, fun h => ?_⟩
  · by_cases hosm : env.osmExists = false <;> simp [hosm, h]
  · have htf := traffic_fail_of_trips_fail (netFileName area.name) area.name env h
    by_cases hosm : env.osmExists = false
    · simp [hosm]
    · by_cases hc : (convert_to_sumo area.name env).1 = none
      · simp [hosm, hc]
      · simp [hosm, hc, htf]
  · by_cases hosm : env.osmExists = false
    · simp [hosm]
    · by_cases hc : (convert_to_sumo area.name env).1 = none
      · simp [hosm, hc]
      · simp [hosm, hc, h]
        rcases traffic_trace_cases (netFileName area.name) area.name env with h2 | h2 <;>
          simp [h2]

/-- Witness for C5 (amended): in the world where `netconvert` exits 1,
none of the later calls appears in the trace. -/
theorem C5_short_circuit_witness :
    Call.randomTrips ∉
        (process_area ⟨"Indiranagar", "indiranagar.osm"⟩ envNetconvertFails).2 ∧
      Call.duarouter ∉
        (process_area ⟨"Indiranagar", "indiranagar.osm"⟩ envNetconvertFails).2 ∧
      Call.writeConfigFiles ∉
        (process_area ⟨"Indiranagar", "indiranagar.osm"⟩ envNetconvertFails).2 :=
  (C5_short_circuit ⟨"Indiranagar", "indiranagar.osm"⟩ envNetconvertFails).1 (by decide)

/-- Claim C6: `process_area` returns an AreaResult for every world — every
exception a tool invocation, file read or file write can raise is caught
by a handler visible in the embedded definitions — and the failure is
captured as data: the returned status is `Failed` exactly when one of the
failure modes (missing input, tool exception such as missing executable
or timeout, nonzero exit, missing checked output artifact, failing config
write) occurred, and `Success` exactly when none did. -/
theorem C6_failures_as_data (area : Area) (env : Env) :
    ((process_area area env).1.status = "Success" ↔ all_good env) ∧
      ((process_area area env).1.status = "Failed" ↔ ¬ all_good env) := by
  have h := status_success_iff area env
  rw [convert_some_iff, traffic_some_iff] at h
  have hgood : (process_area area env).1.status = "Success" ↔ all_good env := by
    rw [h]; unfold all_good; tauto
  refine ⟨hgood, ?_⟩
  rcases status_cases area env with hs | hs
  · have hg := hgood.mp hs
    rw [hs]
    simp [hg]
  · have hng : ¬ all_good env := by
      intro hg
      have hsucc := hgood.mpr hg
      rw [hs] at hsucc
      exact absurd hsucc (by decide)
    rw [hs]
    simp [hng]

/-- Claim C7: a failure of the measure step never fails the pipeline —
replacing the network-file read by a raised exception changes neither the
status of the run nor its call trace (later stages still run), and the
junction and edge counts degrade to zero. -/
theorem C7_measure_failure_degrades (area : Area) (env : Env) (e : PyExc) :
    ((process_area area { env with netFileRead := .error e }).1.status
        = (process_area area env).1.status) ∧
      ((process_area area { env with netFileRead := .error e }).2
        = (process_area area env).2) ∧
      (process_area area { env with netFileRead := .error e }).1.junctions = 0 ∧
      (process_area area { env with netFileRead := .error e }).1.edges = 0 := by
  have hmod : ∀ n, convert_to_sumo n { env with netFileRead := .error e }
      = convert_to_sumo n env := fun n => rfl
  have hmod2 : ∀ f n, generate_traffic f n { env with netFileRead := .error e }
      = generate_traffic f n env := fun f n => rfl
  have hosm : ({ env with netFileRead := .error e } : Env).osmExists = env.osmExists := rfl
  have hcw : ({ env with netFileRead := .error e } : Env).configWrite = env.configWrite := rfl
  have hstats : get_network_stats (netFileName area.name) { env with netFileRead := .error e }
      = ((0, 0), [Call.readNetFile]) := rfl
  rw [process_area_eq, process_area_eq]
  simp only [hmod, hmod2, hosm, hcw, hstats]
  split_ifs <;> simp

/-- Claim C10: every AreaResult produced by `process_area` carries the
fixed configured vehicle count 100 whatever its status, and a `Failed`
result can retain the nonzero junction and edge counts measured before
the failing stage: with three junction markers and two edge markers in
the net file and trip synthesis failing afterwards, the `Failed` result
still carries junctions 3 and edges 2. -/
theorem C10_vehicle_count_and_retained_metrics :
    (∀ (area : Area) (env : Env), (process_area area env).1.vehicles = 100) ∧
      (process_area ⟨"Indiranagar", "indiranagar.osm"⟩ envTripsFail).1.status = "Failed" ∧
      (process_area ⟨"Indiranagar", "indiranagar.osm"⟩ envTripsFail).1.junctions = 3 ∧
      (process_area ⟨"Indiranagar", "indiranagar.osm"⟩ envTripsFail).1.edges = 2 := by
  refine ⟨fun area env => ?_, by decide, by decide, by decide⟩
  rw [process_area_eq]
  dsimp only
  split_ifs <;> rfl

/-- Claim C8: the batch exit code is 0 exactly when every configured
run of every configured area reaches `Success`.  The script returns
`0 if successful == 7 else 1` over the seven-entry registry, and a
count of seven successes among seven results means all succeeded. -/
theorem C8_exit_code (world : String → Env) :
    main_exit_code world = 0 ↔ ∀ r ∈ main_results world, r.status = "Success" := by
  unfold main_exit_code
  have hlen : (main_results world).length = 7 := by
    simp [main_results, AREAS]
  constructor
  · intro h
    have hcount : (main_results world).countP (fun r => r.status == "Success") = 7 := by
      by_contra hne
      simp [hne] at h
    have hall := List.countP_eq_length.mp (by rw [hcount, hlen])
    intro r hr
    simpa using hall r hr
  · intro h
    have hcount : (main_results world).countP (fun r => r.status == "Success") = 7 := by
      rw [← hlen]
      exact List.countP_eq_length.mpr (fun a ha => by simp [h a ha])
    simp [hcount]

/-- Claim C9 counterexample: for the same report data, two invocations of
the renderer at different times differ in TWO chunks, not one — the
`Completion Date` line (index 4, from `datetime.now()` at line 238) and
the `Processing Time` line (index 5, from `datetime.now() - start_time`
at line 239) — so the outputs are not byte-identical up to a single
embedded timestamp field. -/
theorem C9_counterexample :
    ((generate_final_report_chunks [] "2025-01-01 10:00:00" "0:00:05").getD 4 ""
        ≠ (generate_final_report_chunks [] "2025-01-01 10:00:07" "0:00:12").getD 4 "") ∧
      ((generate_final_report_chunks [] "2025-01-01 10:00:00" "0:00:05").getD 5 ""
        ≠ (generate_final_report_chunks [] "2025-01-01 10:00:07" "0:00:12").getD 5 "") ∧
      ((generate_final_report_chunks [] "2025-01-01 10:00:00" "0:00:05").length
        = (generate_final_report_chunks [] "2025-01-01 10:00:07" "0:00:12").length) := by
  refine ⟨?_, ?_, rfl⟩ <;> decide

/-- Claim C9 (amended): rendering is deterministic given the report data
up to the two embedded time-derived fields: for a fixed results list, two
renders agree on every chunk before index 4 and after index 5, and the
chunks at indices 4 and 5 are exactly the completion-date and
processing-time lines. -/
theorem C9_render_deterministic
    (results : List AreaResult) (cd pt cd2 pt2 : String) :
    (generate_final_report_chunks results cd pt).take 4
        = (generate_final_report_chunks results cd2 pt2).take 4 ∧
      (generate_final_report_chunks results cd pt).drop 6
        = (generate_final_report_chunks results cd2 pt2).drop 6 ∧
      (generate_final_report_chunks results cd pt).getD 4 ""
        = "Completion Date: " ++ cd ++ "\n" ∧
      (generate_final_report_chunks results cd pt).getD 5 ""
        = "Processing Time: " ++ pt ++ "\n\n" := by
  refine ⟨rfl, rfl, rfl, rfl⟩
